import Mathlib

/-!
Verification development for the MCP weather/animal demo servers.

The repository ships two near-duplicate servers:
* `src/SSE/mcp-server-sse/mcp_server_sse.py`  (SSE transport)  — modelled in namespace `SSE`
* `src/mcp-server/mcp_server.py`              (WebSocket transport) — modelled in namespace `WS`

The embedding is shallow: every Python function relevant to the frozen
claims is translated into an executable Lean definition.  Outbound HTTP is
modelled by explicit oracle arguments (the response each hop would give),
and each fetcher additionally returns the trace of outbound calls it
issued, so "zero HTTP calls" claims are statable.  Python exceptions that
a function raises are modelled as dedicated result constructors; Python
floats are modelled as rationals.
-/

/-- A single-quote character, used to assemble message strings verbatim. -/
def sQuote : String := String.singleton (Char.ofNat 39)

/-- `startsWithL pat s` : does `s` start with `pat`?  (Python `str.startswith`.) -/
def startsWithL : List Char → List Char → Bool
  | [], _ => true
  | _ :: _, [] => false
  | p :: ps, c :: cs => p == c && startsWithL ps cs

/-- `containsSub needle hay` : does `needle` occur as a contiguous substring of
`hay`?  (Python `needle in hay`.) -/
def containsSub (needle : List Char) : List Char → Bool
  | [] => needle.isEmpty
  | c :: cs => startsWithL needle (c :: cs) || containsSub needle cs

/-- `endsSub needle hay` : does `hay` end with `needle`?  (Python `str.endswith`.) -/
def endsSub (needle hay : List Char) : Bool :=
  startsWithL needle.reverse hay.reverse

/-- String-level wrapper for `containsSub`. -/
def strContains (hay needle : String) : Bool :=
  containsSub needle.toList hay.toList

/-- String-level wrapper for `endsSub`. -/
def strEndsWith (hay needle : String) : Bool :=
  endsSub needle.toList hay.toList

/-- `splitChar c s` : split `s` at every occurrence of `c`
(Python `str.split` with a single-character separator; `"a//b"` splits to
`["a", "", "b"]` and the empty string splits to `[""]`). -/
def splitChar (c : Char) : List Char → List (List Char)
  | [] => [[]]
  | x :: xs =>
    match splitChar c xs with
    | [] => [[]]
    | r :: rs => if x == c then [] :: r :: rs else (x :: r) :: rs

/-- Python `str.upper()` over ASCII (character-wise uppercase). -/
def pyUpper (s : String) : String := String.mk (s.toList.map Char.toUpper)

/-- Python `str.lower()` over ASCII (character-wise lowercase). -/
def pyLower (s : String) : String := String.mk (s.toList.map Char.toLower)

/-- A JSON scalar as it appears in the upstream documents the servers
consume: a string or a number (the numeric payloads that matter here are
integral). -/
inductive JVal where
  | jstr (s : String)
  | jnum (n : Int)
deriving DecidableEq

/-! ## Geocoder data model (shared by both variants)

A Nominatim candidate as consumed by `get_coordinates`: the code reads
`display_name` with `.get` (so it may be absent) and converts `lat`/`lon`
with `float(...)`; we model the already-converted coordinates.  A
conversion failure would surface through the exception path, which the
oracle's `fault` outcome covers. -/
structure Candidate where
  displayName : Option String
  lat : Rat
  lon : Rat
deriving DecidableEq

/-- Result of a geocoder call, mirroring the three dict shapes the Python
functions return: `found=True`, `found=False` with a `suggestion` field,
and `found=False` with a `fallback` field (exception path). -/
inductive GeoResult where
  | found (location displayName : String) (lat lon : Rat)
  | notFound (location error suggestion : String)
  | failed (location error fallback : String)
deriving DecidableEq

/-- `f"No coordinates found for '{location}'. Try being more specific (e.g., add state/country)."` -/
def noCoordMsg (location : String) : String :=
  "No coordinates found for " ++ sQuote ++ location ++ sQuote ++
    ". Try being more specific (e.g., add state/country)."

/-- `"Try adding more details like state, country, or specific address"` -/
def suggestionMsg : String :=
  "Try adding more details like state, country, or specific address"

/-- `"You may need to provide approximate coordinates manually"` -/
def fallbackMsg : String :=
  "You may need to provide approximate coordinates manually"

namespace SSE

/-- The 50-state token list hard-coded (twice, identically) in
`get_coordinates` of the SSE server. -/
def usStates : List String :=
  ["RI", "MA", "NY", "CA", "TX", "FL", "IL", "PA", "OH", "MI", "GA", "NC",
   "NJ", "VA", "WA", "AZ", "TN", "IN", "MO", "MD", "WI", "CO", "MN", "SC",
   "AL", "LA", "KY", "OR", "OK", "CT", "IA", "MS", "AR", "KS", "UT", "NV",
   "NM", "WV", "NE", "ID", "HI", "NH", "ME", "MT", "DE", "SD", "ND", "AK",
   "VT", "WY"]

/-- `'United States' in r.get('display_name', '')` -/
def usPred (r : Candidate) : Bool :=
  strContains (r.displayName.getD "") "United States"

/-- `any(f' {state} ' in dn or dn.endswith(f' {state}') for state in [...])`
applied to `r.get('display_name', '')`. -/
def statePred (r : Candidate) : Bool :=
  usStates.any fun st =>
    strContains (r.displayName.getD "") (" " ++ st ++ " ") ||
    strEndsWith (r.displayName.getD "") (" " ++ st)

/-- Candidate selection of `get_coordinates` (SSE), lines 274-289:
`result = data[0]`; when more than one candidate is present, prefer the
first candidate whose display name contains `"United States"`, else the
first whose display name carries a state token, else keep `data[0]`. -/
def selectCandidate : List Candidate → Option Candidate
  | [] => none
  | [c] => some c
  | d0 :: d1 :: rest =>
    let data := d0 :: d1 :: rest
    let usResults := data.filter usPred
    if usResults.isEmpty then
      let stateResults := data.filter statePred
      if stateResults.isEmpty then some d0 else stateResults.head?
    else usResults.head?

/-- `data.extend(batch_data)` then `break` as soon as a batch contains a
candidate whose display name includes `"United States"` (lines 253-272).
The argument is the sequence of batches the upstream would return for the
successively issued queries. -/
def collectData : List (List Candidate) → List Candidate
  | [] => []
  | b :: bs => if b.any usPred then b else b ++ collectData bs

/-- What the geocoder's try-block experiences: the batches its queries
would return, or an exception (transport fault, malformed payload, ...)
raised anywhere inside the `try`. -/
inductive GeoFetchOutcome where
  | batches (bs : List (List Candidate))
  | fault (msg : String)

/-- `get_coordinates` of the SSE server (lines 233-319), as a function of
the location text and the upstream outcome. -/
def get_coordinates (location : String) : GeoFetchOutcome → GeoResult
  | .fault e =>
      .failed location ("Failed to get coordinates: " ++ e) fallbackMsg
  | .batches bs =>
    match selectCandidate (collectData bs) with
    | none => .notFound location (noCoordMsg location) suggestionMsg
    | some r => .found location (r.displayName.getD location) r.lat r.lon

end SSE

/-! ## Forecast fetcher data model (shared by both variants) -/

/-- Outcome of one `urlopen` hop: a decoded JSON body, an
`urllib.error.HTTPError` with a status code, or an `urllib.error.URLError`. -/
inductive HttpOutcome (α : Type) where
  | ok (body : α)
  | httpError (code : Nat) (reason : String)
  | urlError (reason : String)

/-- An outbound HTTP call, as recorded in the call trace of a fetcher. -/
inductive HttpCall where
  | pointsCall (lat lon : Rat)
  | forecastGet (url : String)
  | alertsCall (state : String)
deriving DecidableEq

/-- The grid-point metadata document: the only field either variant reads
is `properties.forecast` (absent ⇒ `None` in SSE, `KeyError` in WS). -/
structure GridDoc where
  forecastUrl : Option String
deriving DecidableEq

/-- One upstream forecast period; every field the servers read, each
possibly absent (`.get` in SSE, direct indexing in WS). -/
structure RawPeriod where
  name : Option JVal
  temperature : Option JVal
  temperatureUnit : Option JVal
  windSpeed : Option JVal
  windDirection : Option JVal
  shortForecast : Option JVal
  detailedForecast : Option JVal
deriving DecidableEq

/-- The forecast document: `properties.updated` (read only by SSE) and
`properties.periods`. -/
structure ForecastDoc where
  updated : Option JVal
  periods : List RawPeriod
deriving DecidableEq

/-- A formatted output period, as placed in the `periods` list of the
result dict. -/
structure OutPeriod where
  name : JVal
  temperature : JVal
  temperatureUnit : JVal
  windSpeed : JVal
  windDirection : JVal
  shortForecast : JVal
  detailedForecast : JVal
deriving DecidableEq

/-- The success payload of a forecast fetch.  The Python code renders
`location` as `f"{latitude}, {longitude}"`; we keep the coordinates
structured.  `updated` is only populated by the SSE variant. -/
structure ForecastOut where
  lat : Rat
  lon : Rat
  updated : Option JVal
  periods : List OutPeriod
deriving DecidableEq

/-- Result of `get_weather_forecast`:
* `ok` — normal return;
* `coverage` — the SSE soft "outside coverage area" dict (carries the
  fixed error/suggestion strings plus the echoed coordinates);
* `invalidInput` — the raised `ValueError` (bounds check);
* `upstreamError` — the raised `RuntimeError`. -/
inductive FetchResult where
  | ok (f : ForecastOut)
  | coverage (error suggestion : String) (lat lon : Rat)
  | invalidInput (msg : String)
  | upstreamError (msg : String)
deriving DecidableEq

/-- Error string of the SSE coverage dict. -/
def coverageErrMsg : String :=
  "Location not found or outside US National Weather Service coverage area"

/-- Suggestion string of the SSE coverage dict. -/
def coverageSuggMsg : String :=
  "Try a location within the United States"

namespace SSE

/-- The per-period formatter of the SSE variant (the `.get`-with-default
mapping inside the loop of lines 353-362). -/
def fmtPeriod (p : RawPeriod) : OutPeriod :=
  { name := p.name.getD (.jstr "Unknown"),
    temperature := p.temperature.getD (.jstr "N/A"),
    temperatureUnit := p.temperatureUnit.getD (.jstr "F"),
    windSpeed := p.windSpeed.getD (.jstr "N/A"),
    windDirection := p.windDirection.getD (.jstr "N/A"),
    shortForecast := p.shortForecast.getD (.jstr "No forecast available"),
    detailedForecast := p.detailedForecast.getD (.jstr "No detailed forecast available") }

/-- `get_weather_forecast` of the SSE server (lines 321-379).  `hop1` is
the grid-point response, `hop2` the forecast-document response; the second
component of the result is the trace of outbound calls. -/
def get_weather_forecast (latitude longitude : Rat)
    (hop1 : HttpOutcome GridDoc) (hop2 : HttpOutcome ForecastDoc) :
    FetchResult × List HttpCall :=
  if ¬(-90 ≤ latitude ∧ latitude ≤ 90) ∨ ¬(-180 ≤ longitude ∧ longitude ≤ 180) then
    (.invalidInput "Invalid coordinates", [])
  else
    match hop1 with
    | .httpError code reason =>
      if code = 404 then
        (.coverage coverageErrMsg coverageSuggMsg latitude longitude,
         [.pointsCall latitude longitude])
      else
        (.upstreamError ("HTTP error " ++ toString code ++ ": " ++ reason),
         [.pointsCall latitude longitude])
    | .urlError reason =>
        (.upstreamError ("Network error: " ++ reason),
         [.pointsCall latitude longitude])
    | .ok grid =>
      match grid.forecastUrl with
      | none =>
          -- the inner `raise RuntimeError("No forecast URL found ...")` is
          -- re-wrapped by the enclosing `except Exception` handler
          (.upstreamError
            "Failed to get weather forecast: No forecast URL found in grid point response",
           [.pointsCall latitude longitude])
      | some url =>
        match hop2 with
        | .httpError code reason =>
          if code = 404 then
            (.coverage coverageErrMsg coverageSuggMsg latitude longitude,
             [.pointsCall latitude longitude, .forecastGet url])
          else
            (.upstreamError ("HTTP error " ++ toString code ++ ": " ++ reason),
             [.pointsCall latitude longitude, .forecastGet url])
        | .urlError reason =>
            (.upstreamError ("Network error: " ++ reason),
             [.pointsCall latitude longitude, .forecastGet url])
        | .ok fd =>
            (.ok { lat := latitude, lon := longitude,
                   updated := some (fd.updated.getD (.jstr "Unknown")),
                   periods := fd.periods.map fmtPeriod },
             [.pointsCall latitude longitude, .forecastGet url])

end SSE

namespace WS

/-- The per-period mapping of the WS variant (lines 150-159): direct
dictionary indexing, so a missing field raises `KeyError` (modelled as
`none`). -/
def fmtPeriod (p : RawPeriod) : Option OutPeriod := do
  let n ← p.name
  let t ← p.temperature
  let tu ← p.temperatureUnit
  let ws ← p.windSpeed
  let wd ← p.windDirection
  let sf ← p.shortForecast
  let df ← p.detailedForecast
  pure ⟨n, t, tu, ws, wd, sf, df⟩

/-- `get_weather_forecast` of the WebSocket server (lines 126-166).  All
exceptions inside the `try` — `HTTPError` (any code, 404 included),
`URLError`, missing keys — are wrapped by the single
`except Exception: raise RuntimeError(f"Failed to fetch weather forecast: ...")`. -/
def get_weather_forecast (latitude longitude : Rat)
    (hop1 : HttpOutcome GridDoc) (hop2 : HttpOutcome ForecastDoc) :
    FetchResult × List HttpCall :=
  if ¬(-90 ≤ latitude ∧ latitude ≤ 90) ∨ ¬(-180 ≤ longitude ∧ longitude ≤ 180) then
    (.invalidInput "Invalid coordinates", [])
  else
    match hop1 with
    | .httpError code reason =>
        (.upstreamError ("Failed to fetch weather forecast: HTTP Error " ++
           toString code ++ ": " ++ reason),
         [.pointsCall latitude longitude])
    | .urlError reason =>
        (.upstreamError ("Failed to fetch weather forecast: <urlopen error " ++
           reason ++ ">"),
         [.pointsCall latitude longitude])
    | .ok grid =>
      match grid.forecastUrl with
      | none =>
          -- `data["properties"]["forecast"]` raises KeyError('forecast')
          (.upstreamError ("Failed to fetch weather forecast: " ++
             sQuote ++ "forecast" ++ sQuote),
           [.pointsCall latitude longitude])
      | some url =>
        match hop2 with
        | .httpError code reason =>
            (.upstreamError ("Failed to fetch weather forecast: HTTP Error " ++
               toString code ++ ": " ++ reason),
             [.pointsCall latitude longitude, .forecastGet url])
        | .urlError reason =>
            (.upstreamError ("Failed to fetch weather forecast: <urlopen error " ++
               reason ++ ">"),
             [.pointsCall latitude longitude, .forecastGet url])
        | .ok fd =>
          match (fd.periods.take 7).mapM fmtPeriod with
          | none =>
              -- a KeyError from a period field, wrapped like any exception
              (.upstreamError "Failed to fetch weather forecast: KeyError",
               [.pointsCall latitude longitude, .forecastGet url])
          | some ps =>
              (.ok { lat := latitude, lon := longitude, updated := none,
                     periods := ps },
               [.pointsCall latitude longitude, .forecastGet url])

end WS

/-! ## Alert fetcher -/

/-- The `properties` dict of one upstream alert feature; every field read
by either variant, each possibly absent.  (A feature with no `properties`
key behaves as the all-`none` record, matching `feature.get('properties', {})`.) -/
structure AlertFeature where
  event : Option String
  headline : Option String
  description : Option String
  severity : Option String
  certainty : Option String
  urgency : Option String
  areaDesc : Option String
  effective : Option String
  expires : Option String
deriving DecidableEq

/-- Outcome of the single alerts HTTP call: the decoded `features` list,
or an exception anywhere inside the `try`. -/
inductive AlertOutcome where
  | ok (features : List AlertFeature)
  | exn (msg : String)

namespace SSE

/-- One flattened alert record of the SSE variant (lines 217-227). -/
structure AlertRecord where
  event : String
  headline : String
  description : String
  severity : String
  certainty : String
  urgency : String
  areas : String
  effective : String
  expires : String
deriving DecidableEq

/-- Result of `get_weather_alerts`: the flattened records (tagged with the
state actually queried), a raised `ValueError`, or a raised `RuntimeError`. -/
inductive AlertsResult where
  | alerts (queriedState : String) (records : List AlertRecord)
  | invalidInput (msg : String)
  | upstreamError (msg : String)
deriving DecidableEq

/-- Record flattening of the SSE variant: `.get` with `'Unknown'` defaults
for event/severity/certainty/urgency and `''` for the rest. -/
def mkAlertRecord (f : AlertFeature) : AlertRecord :=
  { event := f.event.getD "Unknown",
    headline := f.headline.getD "",
    description := f.description.getD "",
    severity := f.severity.getD "Unknown",
    certainty := f.certainty.getD "Unknown",
    urgency := f.urgency.getD "Unknown",
    areas := f.areaDesc.getD "",
    effective := f.effective.getD "",
    expires := f.expires.getD "" }

/-- `get_weather_alerts` of the SSE server (lines 200-231); the second
component is the trace of outbound calls (the URL embeds the uppercased
state: `f"https://api.weather.gov/alerts/active?area={state}"`). -/
def get_weather_alerts (state : String) (outcome : AlertOutcome) :
    AlertsResult × List HttpCall :=
  if state.length = 0 ∨ state.length ≠ 2 then
    (.invalidInput "State must be a 2-letter US state code", [])
  else
    let st := pyUpper state
    match outcome with
    | .ok features => (.alerts st (features.map mkAlertRecord), [.alertsCall st])
    | .exn e => (.upstreamError ("Failed to fetch weather alerts: " ++ e),
                 [.alertsCall st])

end SSE

namespace WS

/-- One flattened alert record of the WS variant (lines 43-49). -/
structure AlertRecord where
  headline : String
  severity : String
  urgency : String
  areas : String
  description : String
deriving DecidableEq

/-- Result of the WS `get_weather_alerts`. -/
inductive AlertsResult where
  | alerts (queriedState : String) (records : List AlertRecord)
  | invalidInput (msg : String)
  | upstreamError (msg : String)
deriving DecidableEq

/-- Record flattening of the WS variant: `.get` with `''` defaults. -/
def mkAlertRecord (f : AlertFeature) : AlertRecord :=
  { headline := f.headline.getD "",
    severity := f.severity.getD "",
    urgency := f.urgency.getD "",
    areas := f.areaDesc.getD "",
    description := f.description.getD "" }

/-- `get_weather_alerts` of the WebSocket server (lines 26-54). -/
def get_weather_alerts (state : String) (outcome : AlertOutcome) :
    AlertsResult × List HttpCall :=
  if state.length = 0 ∨ state.length ≠ 2 then
    (.invalidInput "State must be a valid 2-letter US state code", [])
  else
    let st := pyUpper state
    match outcome with
    | .ok features => (.alerts st (features.map mkAlertRecord), [.alertsCall st])
    | .exn e => (.upstreamError ("Failed to fetch weather alerts: " ++ e),
                 [.alertsCall st])

/-- `get_coordinates` of the WebSocket server issues a single query with
`limit=1`; its outcome is one candidate list or an exception. -/
inductive GeoFetchOutcome where
  | candidates (cs : List Candidate)
  | fault (msg : String)

/-- `get_coordinates` of the WebSocket server (lines 58-122): takes
`data[0]` of the single response, no preference logic. -/
def get_coordinates (location : String) : GeoFetchOutcome → GeoResult
  | .fault e =>
      .failed location ("Failed to get coordinates: " ++ e) fallbackMsg
  | .candidates [] => .notFound location (noCoordMsg location) suggestionMsg
  | .candidates (c :: _) =>
      .found location (c.displayName.getD location) c.lat c.lon

end WS

/-! ## Static content store -/

/-- Python `str.title()` over ASCII: uppercase a letter that does not
follow a letter, lowercase one that does. -/
def pyTitleGo : Bool → List Char → List Char
  | _, [] => []
  | prevAlpha, c :: cs =>
    (if c.isAlpha then (if prevAlpha then c.toLower else c.toUpper) else c)
      :: pyTitleGo c.isAlpha cs

/-- Python `str.title()`. -/
def pyTitle (s : String) : String := String.mk (pyTitleGo false s.toList)

/-- Python `int(...)` on a plain decimal literal: optional surrounding
spaces, optional sign, at least one digit. -/
def parseDigitsAux : List Char → Nat → Option Nat
  | [], acc => some acc
  | c :: cs, acc =>
    if c.isDigit then parseDigitsAux cs (acc * 10 + (c.toNat - 48)) else none

/-- `pyInt s = some n` iff Python `int(s)` returns `n` (decimal literals). -/
def pyInt (s : String) : Option Int :=
  let cs := ((s.toList.dropWhile (· = ' ')).reverse.dropWhile (· = ' ')).reverse
  match cs with
  | [] => none
  | '-' :: rest =>
      if rest.isEmpty then none
      else (parseDigitsAux rest 0).map fun n => -(n : Int)
  | '+' :: rest =>
      if rest.isEmpty then none
      else (parseDigitsAux rest 0).map fun n => (n : Int)
  | rest => (parseDigitsAux rest 0).map fun n => (n : Int)

/-- Payload of the SSE resource readers: a `contents` list with one text
item, or a dict with an `error` key (still a *result*, not a raised
fault). -/
inductive RROut where
  | contentsText (text : String)
  | errorOut (msg : String)
deriving DecidableEq

namespace SSE

/-- The `facts_db` literal of `generate_animal_facts` (lines 443-476). -/
def facts_db : List (String × List (String × String)) :=
  [("dolphin",
    [("habitat", "Dolphins live in oceans and seas around the world, preferring warm, tropical waters."),
     ("diet", "Dolphins are carnivores, feeding primarily on fish, squid, and crustaceans."),
     ("behavior", "Dolphins are highly social animals, living in groups called pods."),
     ("conservation", "Many dolphin species are threatened by pollution, fishing nets, and habitat loss."),
     ("physical", "Dolphins have streamlined bodies, a distinctive beak, and a dorsal fin."),
     ("reproduction", "Dolphins typically give birth to a single calf after a gestation period of 12 months.")]),
   ("elephant",
    [("habitat", "Elephants live in savannas, grasslands, and forests across Africa and Asia."),
     ("diet", "Elephants are herbivores, consuming up to 300 pounds of vegetation daily."),
     ("behavior", "Elephants live in matriarchal herds led by the oldest female."),
     ("conservation", "Elephants face threats from poaching for ivory and habitat destruction."),
     ("physical", "Elephants are the largest land mammals, with distinctive trunks and tusks."),
     ("reproduction", "Elephants have a gestation period of 22 months, the longest of any mammal.")]),
   ("lion",
    [("habitat", "Lions primarily inhabit grasslands, savannas, and open woodlands in Africa."),
     ("diet", "Lions are apex predators, hunting large ungulates like zebras and wildebeest."),
     ("behavior", "Lions are the only social cats, living in groups called prides."),
     ("conservation", "Lion populations have declined significantly due to habitat loss and human conflict."),
     ("physical", "Male lions are distinguished by their manes, which darken with age."),
     ("reproduction", "Lions typically give birth to 2-4 cubs after a gestation period of 4 months.")]),
   ("cloudwhale",
    [("habitat", "Cloudwhales migrate through the atmospheric layers, preferring cumulus formations."),
     ("diet", "Cloudwhales feed on atmospheric plankton and condensed water vapor."),
     ("behavior", "Cloudwhales are solitary creatures, communicating through low-frequency sky songs."),
     ("conservation", "Cloudwhales are endangered due to air pollution and climate change."),
     ("physical", "Cloudwhales have translucent bodies and can reach lengths of up to 200 feet."),
     ("reproduction", "Cloudwhales reproduce during storm seasons, with calves born in thunderclouds.")])]

/-- `facts_db.get(species, {}).get(category, default)` — the nested dict
lookup of the SSE variant (no case normalization). -/
def factLookup (species category : String) : Option String :=
  (facts_db.lookup species).bind fun row => row.lookup category

/-- `generate_animal_facts` of the SSE server (lines 441-487): always
returns a `contents` payload; an unknown key falls back to
`f"No {category} information available for {species}."`. -/
def generate_animal_facts (species category : String) : RROut :=
  let fact := (factLookup species category).getD
    ("No " ++ category ++ " information available for " ++ species ++ ".")
  .contentsText (pyTitle species ++ " - " ++ pyTitle category ++ ": " ++ fact)

/-- The location table of `generate_weather_report` (lines 497-503); the
decimal literals 41.8240, -71.4128, ... are written as explicit rationals
so that they evaluate inside the kernel. -/
def location_coords : List (String × (Rat × Rat)) :=
  [("providence-ri", (mkRat 418240 10000, mkRat (-714128) 10000)),
   ("boston-ma", (mkRat 423601 10000, mkRat (-710589) 10000)),
   ("new-york-ny", (mkRat 407128 10000, mkRat (-740060) 10000)),
   ("los-angeles-ca", (mkRat 340522 10000, mkRat (-1182437) 10000)),
   ("chicago-il", (mkRat 418781 10000, mkRat (-876298) 10000))]

/-- The day-name list of `generate_weather_report` (lines 523-524). -/
def day_names : List String :=
  ["Today", "Tomorrow", "Day 3", "Day 4", "Day 5", "Day 6", "Day 7",
   "Day 8", "Day 9", "Day 10", "Day 11", "Day 12", "Day 13", "Day 14"]

/-- One synthetic forecast day of the report (lines 522-535):
`temp_high = 70 + (i * 2) % 20`, `temp_low = temp_high - 15`, fixed
conditions/wind/humidity strings. -/
structure DayEntry where
  dayName : String
  high : Int
  low : Int
  conditions : String
  wind : String
  humidity : String
deriving DecidableEq

/-- The loop body of `generate_weather_report` for day index `i`. -/
def mkDayEntry (i : Nat) : DayEntry :=
  let hi : Int := 70 + ((i : Int) * 2) % 20
  { dayName := day_names.getD i "", high := hi, low := hi - 15,
    conditions := "Partly cloudy", wind := "5-10 mph SW", humidity := "65%" }

/-- A generated weather report, structurally: the header data (location,
coordinates, requested day count — the textual wrapper also embeds the
wall-clock generation time, which is outside the model) and the list of
synthetic day entries; or one of the error dicts. -/
inductive ReportResult where
  | report (location : String) (lat lon : Rat) (days : Int) (entries : List DayEntry)
  | error (msg : String)
deriving DecidableEq

/-- `generate_weather_report` of the SSE server (lines 489-549):
`int(days)` (a `ValueError` is caught and answered with the
`"Invalid number of days"` dict), the 1..14 bounds check, the location
table lookup, then one synthetic entry per day index. -/
def generate_weather_report (location : String) (days : String) : ReportResult :=
  match pyInt days with
  | none => .error "Invalid number of days"
  | some d =>
    if d < 1 ∨ 14 < d then .error "Days must be between 1 and 14"
    else
      match location_coords.lookup location with
      | none => .error ("Location " ++ sQuote ++ location ++ sQuote ++
          " not supported. Available: providence-ri, boston-ma, new-york-ny, los-angeles-ca, chicago-il")
      | some (lat, lon) =>
          .report location lat lon d ((List.range d.toNat).map mkDayEntry)

end SSE

namespace WS

/-- The `valid_categories` literal of `get_animal_facts` (line 242). -/
def valid_categories : List String :=
  ["habitat", "diet", "behavior", "conservation", "physical", "reproduction"]

/-- The `animal_facts` literal of `get_animal_facts` (lines 248-281). -/
def animal_facts : List (String × List (String × String)) :=
  [("dolphin",
    [("habitat", "Dolphins live in oceans worldwide, preferring warm, shallow waters near coastlines. They can dive up to 1,000 feet deep."),
     ("diet", "Dolphins are carnivores that primarily eat fish, squid, and crustaceans. They use echolocation to hunt in murky waters."),
     ("behavior", "Dolphins are highly social animals that live in pods of 2-30 individuals. They communicate through clicks, whistles, and body language."),
     ("conservation", "Most dolphin species are stable, but some like the Maui" ++ sQuote ++ "s dolphin are critically endangered with fewer than 50 individuals remaining."),
     ("physical", "Dolphins have streamlined bodies, blowholes for breathing, and can reach speeds up to 25 mph. Their brains are highly developed."),
     ("reproduction", "Dolphins have a gestation period of 12 months and typically give birth to a single calf every 2-3 years.")]),
   ("elephant",
    [("habitat", "Elephants live in savannas, forests, and grasslands across Africa and Asia. They require large territories and access to water sources."),
     ("diet", "Elephants are herbivores that consume up to 300 pounds of vegetation daily, including grasses, fruits, bark, and roots."),
     ("behavior", "Elephants live in matriarchal herds led by the oldest female. They show remarkable intelligence, empathy, and memory."),
     ("conservation", "African elephants are endangered due to poaching and habitat loss. Asian elephants are critically endangered with only 40,000-50,000 remaining."),
     ("physical", "Elephants are the largest land mammals, weighing up to 14,000 pounds. Their trunks contain over 40,000 muscles."),
     ("reproduction", "Elephants have a 22-month gestation period, the longest of any mammal, and give birth to calves weighing 200-300 pounds.")]),
   ("lion",
    [("habitat", "Lions primarily live in African savannas and grasslands. A small population of Asiatic lions exists in India" ++ sQuote ++ "s Gir Forest."),
     ("diet", "Lions are apex predators that hunt large ungulates like zebras, wildebeest, and buffalo. They require 11-15 pounds of meat daily."),
     ("behavior", "Lions are the only social cats, living in prides of 4-6 related females, their cubs, and 1-4 males. They hunt cooperatively."),
     ("conservation", "Lions are vulnerable with populations declining 43% over the past 21 years. Only 20,000-25,000 remain in the wild."),
     ("physical", "Male lions weigh 330-550 pounds and have distinctive manes. They can reach speeds of 50 mph in short bursts."),
     ("reproduction", "Lions have a 3.5-month gestation period and give birth to 1-4 cubs. Cubs stay with the pride for about 2 years.")]),
   ("cloudwhale",
    [("habitat", "Cloudwhales inhabit the upper atmosphere at altitudes of 15,000-25,000 feet, following jet streams and weather patterns."),
     ("diet", "Cloudwhales feed on atmospheric moisture and electrical energy from lightning, which they absorb through specialized dorsal fins."),
     ("behavior", "These ethereal beings migrate seasonally with weather patterns and perform synchronized aerial dances during mating season."),
     ("conservation", "Critically Ethereal - only 47 individuals remain due to climate change and increased air traffic disrupting their habitat."),
     ("physical", "Cloudwhales are 80-120 feet long, semi-translucent, and surprisingly light (2-3 tons) due to hollow, gas-filled bones."),
     ("reproduction", "Cloudwhales reproduce through atmospheric crystallization during storm systems, with offspring emerging from cumulonimbus clouds.")])]

/-- `animal_facts[species_key].get(category_key, default)` lookup. -/
def wsFactLookup (species category : String) : Option String :=
  (animal_facts.lookup species).bind fun row => row.lookup category

/-- `get_animal_facts` of the WebSocket server (lines 237-302): validates
the category against `valid_categories` first (answering with an
`"Invalid category ..."` string), then the species, then renders the
markdown profile embedding the stored fact. -/
def get_animal_facts (species category : String) : String :=
  if ¬ valid_categories.contains (pyLower category) then
    "Invalid category " ++ sQuote ++ category ++ sQuote ++
      ". Available categories: habitat, diet, behavior, conservation, physical, reproduction"
  else
    let species_key := pyLower species
    let category_key := pyLower category
    if (animal_facts.lookup species_key).isNone then
      "No facts available for " ++ sQuote ++ species ++ sQuote ++
        ". Available animals: dolphin, elephant, lion, cloudwhale"
    else
      let fact := (wsFactLookup species_key category_key).getD
        ("No " ++ category ++ " facts available for " ++ species)
      "# " ++ pyTitle species ++ " - " ++ pyTitle category ++ " Facts\n\n" ++
      "**Species**: " ++ pyTitle species ++ "\n" ++
      "**Category**: " ++ pyTitle category ++ "\n" ++
      "**Resource URI**: animal://facts/" ++ species ++ "/" ++ category ++ "\n\n" ++
      "## " ++ pyTitle category ++ " Information\n\n" ++
      fact ++ "\n\n" ++
      "---\n" ++
      "*This information was dynamically retrieved using MCP resource templates.*"

end WS

/-! ## SSE request router -/

namespace SSE

/-- The fields of `request.params` the two modelled handlers read
(`params.get("name")`, `params.get("arguments", {})`, `params.get("uri")`);
a key that is absent — or, for `uri`, present but empty, since the code
tests `if not uri` — is `none`/`""` here. -/
structure ReqParams where
  name : Option String
  arguments : List (String × String)
  uri : Option String
deriving DecidableEq

/-- An incoming `MCPRequest`. -/
structure MCPReq where
  id : Option Int
  method : String
  params : Option ReqParams
deriving DecidableEq

/-- The `result` payload shapes the two handlers produce. -/
inductive RespBody where
  | toolsList
  | toolContent (text : String)
  | resourcesList
  | resourceData (r : RROut)
deriving DecidableEq

/-- An outgoing `MCPResponse`. -/
structure MCPResp where
  id : Option Int
  result : Option RespBody
  error : Option (Int × String)
deriving DecidableEq

/-- What executing the named tool with the caller's arguments would
produce: the JSON-encoded result text, or a raised exception's message. -/
inductive ToolOutcome where
  | ok (text : String)
  | exn (msg : String)

/-- The per-connection event-queue registry `sse_connections`; the
handlers never touch it, which the model makes explicit by threading it
through. -/
def SSEConns := List String

/-- The empty `ReqParams` (`request.params or {}`). -/
def emptyParams : ReqParams := { name := none, arguments := [], uri := none }

/-- `handle_tool_request` of the SSE server (lines 704-755).  `exec`
abstracts running a known tool with the request's arguments. -/
def handle_tool_request (req : MCPReq) (exec : String → ToolOutcome)
    (conns : SSEConns) : MCPResp × SSEConns :=
  let params := req.params.getD emptyParams
  if req.method = "tools/list" then
    ({ id := req.id, result := some .toolsList, error := none }, conns)
  else if req.method = "tools/call" then
    match params.name with
    | some n =>
      if n = "get_weather_alerts" ∨ n = "get_coordinates" ∨ n = "get_weather_forecast" then
        match exec n with
        | .ok text =>
            ({ id := req.id, result := some (.toolContent text), error := none }, conns)
        | .exn e =>
            ({ id := req.id, result := none,
               error := some (-32603, "Tool execution failed: " ++ e) }, conns)
      else
        ({ id := req.id, result := none,
           error := some (-32601, "Unknown tool: " ++ n) }, conns)
    | none =>
        ({ id := req.id, result := none,
           error := some (-32601, "Unknown tool: None") }, conns)
  else
    ({ id := req.id, result := none,
       error := some (-32601, "Unknown method: " ++ req.method) }, conns)

/-- `handle_resource_request` of the SSE server (lines 757-794).  `reader`
abstracts `read_resource` (which itself never raises — it catches every
exception and returns an error dict, so the handler's `-32603` arm is
unreachable). -/
def handle_resource_request (req : MCPReq) (reader : String → RROut)
    (conns : SSEConns) : MCPResp × SSEConns :=
  let params := req.params.getD emptyParams
  if req.method = "resources/list" then
    ({ id := req.id, result := some .resourcesList, error := none }, conns)
  else if req.method = "resources/read" then
    match params.uri with
    | none =>
        ({ id := req.id, result := none,
           error := some (-32602, "Missing required parameter: uri") }, conns)
    | some u =>
      if u = "" then
        ({ id := req.id, result := none,
           error := some (-32602, "Missing required parameter: uri") }, conns)
      else
        ({ id := req.id, result := some (.resourceData (reader u)), error := none }, conns)
  else
    ({ id := req.id, result := none,
       error := some (-32601, "Unknown method: " ++ req.method) }, conns)

/-! ## SSE resource URI dispatch (`read_resource`, lines 382-419) -/

/-- The dispatch decision of `read_resource`: which generator is invoked
with which captured parameters, or the `"Unknown resource URI"` fallthrough. -/
inductive Route where
  | animalStatic (animal : String)
  | animalFacts (species category : String)
  | weatherReport (location days : String)
  | climateData (location year month : String)
  | unknown (uri : String)
deriving DecidableEq

/-- The slash-splitting dispatch of `read_resource`.  Notes kept from the
source: the `animal://` branch first tests `uri.count("/") == 1`, which no
URI starting with `animal://` can satisfy (the scheme already contributes
two slashes), so the static-animal arm is dead code — its
`uri.split("://")[1]` is modelled as dropping the 9 scheme characters.
A `weather://` URI must start with `weather://report/`; otherwise, and
whenever an inner guard fails without returning, control falls through to
the `"Unknown resource URI"` dict. -/
def read_resource_route (uri : String) : Route :=
  let cs := uri.toList
  if startsWithL "animal://".toList cs then
    if cs.count '/' = 1 then
      .animalStatic (String.mk (cs.drop 9))
    else
      let parts := splitChar '/' cs
      if parts.length ≥ 4 ∧ parts.getD 2 [] = "facts".toList then
        .animalFacts (String.mk (parts.getD 3 []))
          (if parts.length > 4 then String.mk (parts.getD 4 []) else "general")
      else .unknown uri
  else if startsWithL "weather://report/".toList cs then
    let parts := splitChar '/' cs
    if parts.length ≥ 4 then
      .weatherReport (String.mk (parts.getD 3 []))
        (if parts.length > 4 then String.mk (parts.getD 4 []) else "7")
    else .unknown uri
  else if startsWithL "climate://".toList cs then
    let parts := splitChar '/' cs
    if parts.length ≥ 4 then
      .climateData (String.mk (parts.getD 2 [])) (String.mk (parts.getD 3 []))
        (if parts.length > 4 then String.mk (parts.getD 4 []) else "01")
    else .unknown uri
  else .unknown uri

end SSE

/-! ## Shared helper lemmas -/

/-- A list with a `p`-positive element has a nonempty `p`-filter. -/
theorem filter_not_isEmpty_of_any {α} (p : α → Bool) (l : List α)
    (h : l.any p = true) : (l.filter p).isEmpty = false := by
  rcases List.any_eq_true.mp h with ⟨x, hx, hpx⟩
  cases hf : l.filter p with
  | nil => exact absurd hpx (List.filter_eq_nil_iff.mp hf x hx)
  | cons y ys => simp

/-- A list with no `p`-positive element has an empty `p`-filter. -/
theorem filter_isEmpty_of_not_any {α} (p : α → Bool) (l : List α)
    (h : l.any p = false) : (l.filter p).isEmpty = true := by
  have : l.filter p = [] := List.filter_eq_nil_iff.mpr fun a ha hpa => by
    have := List.any_eq_true.mpr ⟨a, ha, hpa⟩
    rw [h] at this; exact Bool.false_ne_true this
  simp [this]

/-! ## C1 — geocoder candidate selection -/

/-- **C1.** For every non-empty candidate list, the SSE geocoder's
selection follows the preference order of the spec: if some candidate's
display name contains `"United States"` the first such candidate is
selected; otherwise, if some candidate's display name carries a 2-letter
US state token (space-delimited or as a space-preceded suffix, the code's
word/suffix test) the first such candidate is selected; otherwise the
first candidate in upstream order is selected.  In particular, of
`[Springfield, Germany; Springfield, IL, United States]` the second is
selected. -/
theorem c1_candidate_selection :
    (∀ data : List Candidate, data ≠ [] → data.any SSE.usPred = true →
        SSE.selectCandidate data = (data.filter SSE.usPred).head?) ∧
    (∀ data : List Candidate, data ≠ [] → data.any SSE.usPred = false →
        data.any SSE.statePred = true →
        SSE.selectCandidate data = (data.filter SSE.statePred).head?) ∧
    (∀ data : List Candidate, data ≠ [] → data.any SSE.usPred = false →
        data.any SSE.statePred = false →
        SSE.selectCandidate data = data.head?) ∧
    SSE.selectCandidate
        [⟨some "Springfield, Germany", 50, 9⟩,
         ⟨some "Springfield, IL, United States", 40, -90⟩] =
      some ⟨some "Springfield, IL, United States", 40, -90⟩ := by
  refine ⟨?_, ?_, ?_, by decide⟩
  · intro data hne hany
    match data with
    | [c] =>
      have hc : SSE.usPred c = true := by simpa using hany
      simp [SSE.selectCandidate, List.filter, hc]
    | d0 :: d1 :: rest =>
      have h1 := filter_not_isEmpty_of_any SSE.usPred (d0 :: d1 :: rest) hany
      simp only [SSE.selectCandidate]
      rw [h1]
      simp
  · intro data hne hus hst
    match data with
    | [c] =>
      have hc : SSE.statePred c = true := by simpa using hst
      have hcu : SSE.usPred c = false := by simpa using hus
      simp [SSE.selectCandidate, List.filter, hc]
    | d0 :: d1 :: rest =>
      have h1 := filter_isEmpty_of_not_any SSE.usPred (d0 :: d1 :: rest) hus
      have h2 := filter_not_isEmpty_of_any SSE.statePred (d0 :: d1 :: rest) hst
      simp only [SSE.selectCandidate]
      rw [h1, if_pos rfl, h2]
      simp
  · intro data hne hus hst
    match data with
    | [c] => simp [SSE.selectCandidate]
    | d0 :: d1 :: rest =>
      have h1 := filter_isEmpty_of_not_any SSE.usPred (d0 :: d1 :: rest) hus
      have h2 := filter_isEmpty_of_not_any SSE.statePred (d0 :: d1 :: rest) hst
      simp only [SSE.selectCandidate]
      rw [h1, if_pos rfl, h2, if_pos rfl]
      simp

/-- Witness for C1: the theorem applied to concrete candidate lists. -/
theorem c1_candidate_selection_witness :
    SSE.selectCandidate [⟨some "Berlin, Germany", 52, 13⟩] =
      some ⟨some "Berlin, Germany", 52, 13⟩ := by
  have h := c1_candidate_selection.2.2.1 [⟨some "Berlin, Germany", 52, 13⟩]
    (by simp) (by decide) (by decide)
  simpa using h

/-! ## C4 — coordinate bounds validation -/

/-- **C4.** For any coordinates with `|lat| > 90` or `|lon| > 180`, both
variants of `get_weather_forecast` raise the `ValueError` (modelled as
`invalidInput`) and issue zero outbound HTTP calls, whatever the upstream
would have answered: the value is rejected, never clamped. -/
theorem c4_bounds_reject (lat lon : Rat) (h : 90 < |lat| ∨ 180 < |lon|)
    (hop1 : HttpOutcome GridDoc) (hop2 : HttpOutcome ForecastDoc) :
    SSE.get_weather_forecast lat lon hop1 hop2 =
      (FetchResult.invalidInput "Invalid coordinates", []) ∧
    WS.get_weather_forecast lat lon hop1 hop2 =
      (FetchResult.invalidInput "Invalid coordinates", []) := by
  have hc : ¬(-90 ≤ lat ∧ lat ≤ 90) ∨ ¬(-180 ≤ lon ∧ lon ≤ 180) := by
    rcases h with h | h
    · left
      rintro ⟨h1, h2⟩
      have := abs_le.mpr ⟨h1, h2⟩
      linarith
    · right
      rintro ⟨h1, h2⟩
      have := abs_le.mpr ⟨h1, h2⟩
      linarith
  constructor
  · unfold SSE.get_weather_forecast
    rw [if_pos hc]
  · unfold WS.get_weather_forecast
    rw [if_pos hc]

/-- Witness for C4 at latitude 91. -/
theorem c4_bounds_reject_witness :
    (90 < |(91 : Rat)| ∨ 180 < |(0 : Rat)|) ∧
    SSE.get_weather_forecast 91 0 (.ok ⟨none⟩) (.ok ⟨none, []⟩) =
      (FetchResult.invalidInput "Invalid coordinates", []) ∧
    WS.get_weather_forecast 91 0 (.ok ⟨none⟩) (.ok ⟨none, []⟩) =
      (FetchResult.invalidInput "Invalid coordinates", []) := by
  have h : 90 < |(91 : Rat)| ∨ 180 < |(0 : Rat)| := by
    left; rw [abs_of_pos] <;> norm_num
  exact ⟨h, c4_bounds_reject 91 0 h _ _⟩

/-! ## C8 — alert fetcher input handling -/

/-- **C8.** Both variants of `get_weather_alerts`: a 2-character region
code is uppercased before the query (the single outbound call carries the
uppercased code; `"ri"` queries `"RI"`), and any input whose length is
not 2 raises the `ValueError` (modelled as `invalidInput`) with no
outbound call. -/
theorem c8_alerts_normalization :
    (∀ (s : String) (o : AlertOutcome), s.length = 2 →
        (SSE.get_weather_alerts s o).2 = [HttpCall.alertsCall (pyUpper s)] ∧
        (WS.get_weather_alerts s o).2 = [HttpCall.alertsCall (pyUpper s)]) ∧
    ((SSE.get_weather_alerts "ri" (.ok [])).2 = [HttpCall.alertsCall "RI"] ∧
     (WS.get_weather_alerts "ri" (.ok [])).2 = [HttpCall.alertsCall "RI"]) ∧
    (∀ (s : String) (o : AlertOutcome), s.length ≠ 2 →
        SSE.get_weather_alerts s o =
          (SSE.AlertsResult.invalidInput "State must be a 2-letter US state code", []) ∧
        WS.get_weather_alerts s o =
          (WS.AlertsResult.invalidInput "State must be a valid 2-letter US state code", [])) := by
  refine ⟨?_, ⟨by decide, by decide⟩, ?_⟩
  · intro s o h
    have hg : ¬(s.length = 0 ∨ s.length ≠ 2) := by
      rintro (h0 | hne) <;> omega
    constructor
    · unfold SSE.get_weather_alerts
      rw [if_neg hg]
      cases o <;> rfl
    · unfold WS.get_weather_alerts
      rw [if_neg hg]
      cases o <;> rfl
  · intro s o h
    have hg : s.length = 0 ∨ s.length ≠ 2 := Or.inr h
    constructor
    · unfold SSE.get_weather_alerts
      rw [if_pos hg]
    · unfold WS.get_weather_alerts
      rw [if_pos hg]

/-- Witness for C8 at `"ri"` (valid) and `"RHO"` (invalid length). -/
theorem c8_alerts_normalization_witness :
    ((SSE.get_weather_alerts "ri" (.exn "boom")).2 =
        [HttpCall.alertsCall (pyUpper "ri")]) ∧
    (WS.get_weather_alerts "RHO" (.ok []) =
        (WS.AlertsResult.invalidInput "State must be a valid 2-letter US state code", [])) := by
  refine ⟨(c8_alerts_normalization.1 "ri" (.exn "boom") (by decide)).1,
          (c8_alerts_normalization.2.2 "RHO" (.ok []) (by decide)).2⟩

/-! ## C2 — 404 handling on the two forecast hops -/

/-- Does a fetch result carry the soft "outside coverage area" payload? -/
def FetchResult.isCoverage : FetchResult → Bool
  | .coverage _ _ _ _ => true
  | _ => false

/-- **C2 counterexample.**  In the WebSocket variant, an HTTP 404 on the
grid-point hop (coordinates in bounds) is wrapped into the raised
`RuntimeError` — an UpstreamError — not returned as a soft coverage
payload, so the "holds identically in both server variants" part of the
claim is false. -/
theorem c2_404_counterexample :
    (WS.get_weather_forecast 41 (-71) (.httpError 404 "Not Found") (.ok ⟨none, []⟩)).1 =
      FetchResult.upstreamError
        "Failed to fetch weather forecast: HTTP Error 404: Not Found" ∧
    FetchResult.isCoverage
      (WS.get_weather_forecast 41 (-71) (.httpError 404 "Not Found") (.ok ⟨none, []⟩)).1
        = false := by
  constructor <;> decide

/-- **C2 (amended).**  For in-bounds coordinates, an HTTP 404 on either
hop makes the SSE variant return the soft "outside coverage area" payload
(not an error); the WebSocket variant instead wraps the 404 — like every
other fault — into the raised `RuntimeError` (UpstreamError). -/
theorem c2_404_soft_coverage_amended (lat lon : Rat)
    (h1 : -90 ≤ lat) (h2 : lat ≤ 90) (h3 : -180 ≤ lon) (h4 : lon ≤ 180)
    (reason url : String)
    (hop2 : HttpOutcome ForecastDoc) :
    SSE.get_weather_forecast lat lon (.httpError 404 reason) hop2 =
      (FetchResult.coverage coverageErrMsg coverageSuggMsg lat lon,
       [HttpCall.pointsCall lat lon]) ∧
    SSE.get_weather_forecast lat lon (.ok ⟨some url⟩) (.httpError 404 reason) =
      (FetchResult.coverage coverageErrMsg coverageSuggMsg lat lon,
       [HttpCall.pointsCall lat lon, HttpCall.forecastGet url]) ∧
    WS.get_weather_forecast lat lon (.httpError 404 reason) hop2 =
      (FetchResult.upstreamError
        ("Failed to fetch weather forecast: HTTP Error 404: " ++ reason),
       [HttpCall.pointsCall lat lon]) ∧
    WS.get_weather_forecast lat lon (.ok ⟨some url⟩) (.httpError 404 reason) =
      (FetchResult.upstreamError
        ("Failed to fetch weather forecast: HTTP Error 404: " ++ reason),
       [HttpCall.pointsCall lat lon, HttpCall.forecastGet url]) := by
  have hcond : ¬(¬(-90 ≤ lat ∧ lat ≤ 90) ∨ ¬(-180 ≤ lon ∧ lon ≤ 180)) := by
    rintro (hc | hc)
    · exact hc ⟨h1, h2⟩
    · exact hc ⟨h3, h4⟩
  have h404 : (toString (404 : Nat)) = "404" := by decide
  refine ⟨?_, ?_, ?_, ?_⟩ <;>
    · first
      | (unfold SSE.get_weather_forecast; rw [if_neg hcond]; simp)
      | (unfold WS.get_weather_forecast; rw [if_neg hcond]; simp [h404])

/-- Witness for the amended C2 at Providence-ish coordinates. -/
theorem c2_404_soft_coverage_amended_witness :
    SSE.get_weather_forecast 41 (-71) (.httpError 404 "Not Found") (.ok ⟨none, []⟩) =
      (FetchResult.coverage coverageErrMsg coverageSuggMsg 41 (-71),
       [HttpCall.pointsCall 41 (-71)]) := by
  exact (c2_404_soft_coverage_amended 41 (-71) (by norm_num) (by norm_num)
    (by norm_num) (by norm_num) "Not Found" "u" (.ok ⟨none, []⟩)).1

/-! ## C3 — period truncation -/

/-- The `periods` list of a successful fetch result, if any. -/
def periodsOf : FetchResult → Option (List OutPeriod)
  | .ok f => some f.periods
  | _ => none

/-- A fully populated sample upstream period. -/
def samplePeriod : RawPeriod :=
  { name := some (.jstr "Tonight"), temperature := some (.jnum 60),
    temperatureUnit := some (.jstr "F"), windSpeed := some (.jstr "5 mph"),
    windDirection := some (.jstr "SW"), shortForecast := some (.jstr "Clear"),
    detailedForecast := some (.jstr "Clear skies") }

/-- **C3 counterexample.**  When the upstream forecast document carries 8
periods, the SSE variant returns all 8 of them — not the first 7 the
claim requires — so the claim fails on the SSE `get_weather_forecast`. -/
theorem c3_truncation_counterexample :
    (periodsOf (SSE.get_weather_forecast 41 (-71) (.ok ⟨some "u"⟩)
        (.ok ⟨none, List.replicate 8 samplePeriod⟩)).1).map List.length = some 8 := by
  decide

/-- **C3 (amended).**  For a successful fetch on in-bounds coordinates,
the WebSocket variant returns the upstream period list in upstream order
truncated to the first 7 (`periods[:7]`), while the SSE variant returns
the whole upstream period list in order, without truncation. -/
theorem c3_truncation_amended (lat lon : Rat)
    (h1 : -90 ≤ lat) (h2 : lat ≤ 90) (h3 : -180 ≤ lon) (h4 : lon ≤ 180)
    (url : String) (fd : ForecastDoc) (outs : List OutPeriod)
    (hws : (fd.periods.take 7).mapM WS.fmtPeriod = some outs) :
    WS.get_weather_forecast lat lon (.ok ⟨some url⟩) (.ok fd) =
      (FetchResult.ok ⟨lat, lon, none, outs⟩,
       [HttpCall.pointsCall lat lon, HttpCall.forecastGet url]) ∧
    SSE.get_weather_forecast lat lon (.ok ⟨some url⟩) (.ok fd) =
      (FetchResult.ok ⟨lat, lon, some (fd.updated.getD (.jstr "Unknown")),
          fd.periods.map SSE.fmtPeriod⟩,
       [HttpCall.pointsCall lat lon, HttpCall.forecastGet url]) ∧
    (fd.periods.map SSE.fmtPeriod).length = fd.periods.length := by
  have hcond : ¬(¬(-90 ≤ lat ∧ lat ≤ 90) ∨ ¬(-180 ≤ lon ∧ lon ≤ 180)) := by
    rintro (hc | hc)
    · exact hc ⟨h1, h2⟩
    · exact hc ⟨h3, h4⟩
  refine ⟨?_, ?_, List.length_map _ _⟩
  · have hloop : List.mapM.loop WS.fmtPeriod (List.take 7 fd.periods) [] = some outs := by
      simpa [List.mapM] using hws
    unfold WS.get_weather_forecast
    rw [if_neg hcond]
    simp [hloop]
  · unfold SSE.get_weather_forecast
    rw [if_neg hcond]

/-- Witness for the amended C3 on a concrete 8-period document: the WS
variant keeps exactly the first 7. -/
theorem c3_truncation_amended_witness :
    WS.get_weather_forecast 41 (-71) (.ok ⟨some "u"⟩)
        (.ok ⟨none, List.replicate 8 samplePeriod⟩) =
      (FetchResult.ok ⟨41, -71, none,
          List.replicate 7 ⟨.jstr "Tonight", .jnum 60, .jstr "F", .jstr "5 mph",
            .jstr "SW", .jstr "Clear", .jstr "Clear skies"⟩⟩,
       [HttpCall.pointsCall 41 (-71), HttpCall.forecastGet "u"]) := by
  exact (c3_truncation_amended 41 (-71) (by norm_num) (by norm_num) (by norm_num)
    (by norm_num) "u" ⟨none, List.replicate 8 samplePeriod⟩ _ (by decide)).1

/-! ## C6 — geocoder soft failure modes -/

/-- **C6.**  Neither geocoder variant raises: an empty candidate set
yields the `found=false` diagnostic dict (with the `suggestion` field),
and a fault inside the `try` yields the `found=false` dict carrying the
distinct `fallback` field; in both server variants. -/
theorem c6_geocoder_soft_failures :
    (∀ (loc : String) (bs : List (List Candidate)), SSE.collectData bs = [] →
        SSE.get_coordinates loc (.batches bs) =
          GeoResult.notFound loc (noCoordMsg loc) suggestionMsg) ∧
    (∀ loc e : String,
        SSE.get_coordinates loc (.fault e) =
          GeoResult.failed loc ("Failed to get coordinates: " ++ e) fallbackMsg) ∧
    (∀ loc : String,
        WS.get_coordinates loc (.candidates []) =
          GeoResult.notFound loc (noCoordMsg loc) suggestionMsg) ∧
    (∀ loc e : String,
        WS.get_coordinates loc (.fault e) =
          GeoResult.failed loc ("Failed to get coordinates: " ++ e) fallbackMsg) := by
  refine ⟨?_, fun loc e => rfl, fun loc => rfl, fun loc e => rfl⟩
  intro loc bs h
  simp [SSE.get_coordinates, h, SSE.selectCandidate]

/-- Witness for C6 on a concrete empty batch and a concrete fault. -/
theorem c6_geocoder_soft_failures_witness :
    SSE.get_coordinates "Atlantis" (.batches [[], []]) =
      GeoResult.notFound "Atlantis" (noCoordMsg "Atlantis") suggestionMsg ∧
    WS.get_coordinates "Atlantis" (.fault "timeout") =
      GeoResult.failed "Atlantis" "Failed to get coordinates: timeout" fallbackMsg := by
  exact ⟨c6_geocoder_soft_failures.1 "Atlantis" [[], []] (by decide),
         c6_geocoder_soft_failures.2.2.2 "Atlantis" "timeout"⟩

/-! ## C7 — static fact lookup -/

/-- **C7 counterexample.**  In the WebSocket variant,
`get_animal_facts("dolphin", "nonexistent")` answers with the
`"Invalid category ..."` listing — not with a "No <category> information"
message — because that variant validates the category before consulting
the fact table; so the "in both server variants" claim is false. -/
theorem c7_fact_lookup_counterexample :
    WS.get_animal_facts "dolphin" "nonexistent" =
      "Invalid category " ++ sQuote ++ "nonexistent" ++ sQuote ++
        ". Available categories: habitat, diet, behavior, conservation, physical, reproduction" ∧
    strContains (WS.get_animal_facts "dolphin" "nonexistent")
        "No nonexistent information" = false := by
  constructor <;> decide

set_option maxRecDepth 40000 in
/-- **C7 (amended).**  Each variant's lookup retrieves exactly the fixed
string stored in its fact table for `(dolphin, habitat)` and embeds it
verbatim in the rendered payload; for `(dolphin, nonexistent)` the SSE
variant falls back to the `"No nonexistent information available for
dolphin."` message while the WebSocket variant answers with the
`"Invalid category ..."` listing — in neither variant is an exception
raised (both produce ordinary return values). -/
theorem c7_fact_lookup_amended :
    SSE.factLookup "dolphin" "habitat" =
      some "Dolphins live in oceans and seas around the world, preferring warm, tropical waters." ∧
    SSE.generate_animal_facts "dolphin" "habitat" =
      RROut.contentsText
        "Dolphin - Habitat: Dolphins live in oceans and seas around the world, preferring warm, tropical waters." ∧
    SSE.generate_animal_facts "dolphin" "nonexistent" =
      RROut.contentsText
        "Dolphin - Nonexistent: No nonexistent information available for dolphin." ∧
    WS.wsFactLookup "dolphin" "habitat" =
      some "Dolphins live in oceans worldwide, preferring warm, shallow waters near coastlines. They can dive up to 1,000 feet deep." ∧
    WS.get_animal_facts "dolphin" "habitat" =
      "# Dolphin - Habitat Facts\n\n**Species**: Dolphin\n**Category**: Habitat\n**Resource URI**: animal://facts/dolphin/habitat\n\n## Habitat Information\n\n"
        ++ "Dolphins live in oceans worldwide, preferring warm, shallow waters near coastlines. They can dive up to 1,000 feet deep."
        ++ "\n\n---\n*This information was dynamically retrieved using MCP resource templates.*" ∧
    WS.get_animal_facts "dolphin" "nonexistent" =
      "Invalid category " ++ sQuote ++ "nonexistent" ++ sQuote ++
        ". Available categories: habitat, diet, behavior, conservation, physical, reproduction" := by
  refine ⟨by decide, by decide, by decide, by decide, by decide, by decide⟩

/-! ## C9 — synthetic weather report -/

/-- **C9.**  `weather://report/providence-ri/7` routes to the report
generator with `location = "providence-ri"`, `days = "7"`; the generated
report has exactly 7 day entries whose high temperatures follow
`70 + (i * 2) % 20` over the day index `i` — concretely
`[70, 72, 74, 76, 78, 80, 82]`, monotonically non-decreasing — and any
parsed `days` value outside `[1, 14]` is answered with the error payload
instead. -/
theorem c9_weather_report :
    SSE.read_resource_route "weather://report/providence-ri/7" =
      SSE.Route.weatherReport "providence-ri" "7" ∧
    SSE.generate_weather_report "providence-ri" "7" =
      SSE.ReportResult.report "providence-ri" (mkRat 418240 10000)
        (mkRat (-714128) 10000) 7 ((List.range 7).map SSE.mkDayEntry) ∧
    ((List.range 7).map SSE.mkDayEntry).length = 7 ∧
    ((List.range 7).map SSE.mkDayEntry).map SSE.DayEntry.high =
      [70, 72, 74, 76, 78, 80, 82] ∧
    (∀ i : Nat, i < 7 →
      (((List.range 7).map SSE.mkDayEntry).map SSE.DayEntry.high).getD i 0 =
        70 + ((i : Int) * 2) % 20) ∧
    List.Chain' (· ≤ ·) (((List.range 7).map SSE.mkDayEntry).map SSE.DayEntry.high) ∧
    (∀ (loc ds : String) (d : Int), pyInt ds = some d → (d < 1 ∨ 14 < d) →
        SSE.generate_weather_report loc ds =
          SSE.ReportResult.error "Days must be between 1 and 14") := by
  have hmap : ((List.range 7).map SSE.mkDayEntry).map SSE.DayEntry.high =
      ([70, 72, 74, 76, 78, 80, 82] : List Int) := by decide
  refine ⟨by decide, by decide, by decide, hmap, ?_, ?_, ?_⟩
  · intro i hi
    interval_cases i <;> simp [hmap]
  · rw [hmap]
    norm_num [List.chain'_cons]
  · intro loc ds d hp hd
    unfold SSE.generate_weather_report
    rw [hp]
    simp only [if_pos hd]

/-- Witness for C9's universally quantified rejection part at `days = "15"`. -/
theorem c9_weather_report_witness :
    SSE.generate_weather_report "providence-ri" "15" =
      SSE.ReportResult.error "Days must be between 1 and 14" := by
  exact c9_weather_report.2.2.2.2.2.2 "providence-ri" "15" 15 (by decide)
    (by norm_num)

/-! ## C5 — router error envelope -/

/-- **C5.**  The SSE router's JSON-RPC error envelope: an unknown method
(in either handler) and an unknown or missing tool name yield `-32601`; a
missing (or empty) `uri` parameter on `resources/read` yields `-32602`;
an exception raised while executing a known tool yields `-32603`.  Every
one of these paths returns the connection registry unchanged.  (A missing
tool argument surfaces inside the tool itself and is reported through the
`-32603` execution-failure arm, matching the code.) -/
theorem c5_router_error_codes :
    (∀ (req : SSE.MCPReq) (exec : String → SSE.ToolOutcome) (conns : SSE.SSEConns),
       req.method ≠ "tools/list" → req.method ≠ "tools/call" →
       SSE.handle_tool_request req exec conns =
         ({ id := req.id, result := none,
            error := some (-32601, "Unknown method: " ++ req.method) }, conns)) ∧
    (∀ (id : Option Int) (p : SSE.ReqParams) (n : String)
       (exec : String → SSE.ToolOutcome) (conns : SSE.SSEConns),
       p.name = some n →
       n ≠ "get_weather_alerts" → n ≠ "get_coordinates" → n ≠ "get_weather_forecast" →
       SSE.handle_tool_request ⟨id, "tools/call", some p⟩ exec conns =
         ({ id := id, result := none,
            error := some (-32601, "Unknown tool: " ++ n) }, conns)) ∧
    (∀ (id : Option Int) (p : SSE.ReqParams)
       (exec : String → SSE.ToolOutcome) (conns : SSE.SSEConns),
       p.name = none →
       SSE.handle_tool_request ⟨id, "tools/call", some p⟩ exec conns =
         ({ id := id, result := none,
            error := some (-32601, "Unknown tool: None") }, conns)) ∧
    (∀ (id : Option Int) (p : SSE.ReqParams) (n e : String)
       (exec : String → SSE.ToolOutcome) (conns : SSE.SSEConns),
       p.name = some n →
       (n = "get_weather_alerts" ∨ n = "get_coordinates" ∨ n = "get_weather_forecast") →
       exec n = SSE.ToolOutcome.exn e →
       SSE.handle_tool_request ⟨id, "tools/call", some p⟩ exec conns =
         ({ id := id, result := none,
            error := some (-32603, "Tool execution failed: " ++ e) }, conns)) ∧
    (∀ (req : SSE.MCPReq) (reader : String → RROut) (conns : SSE.SSEConns),
       req.method ≠ "resources/list" → req.method ≠ "resources/read" →
       SSE.handle_resource_request req reader conns =
         ({ id := req.id, result := none,
            error := some (-32601, "Unknown method: " ++ req.method) }, conns)) ∧
    (∀ (id : Option Int) (p : SSE.ReqParams)
       (reader : String → RROut) (conns : SSE.SSEConns),
       p.uri = none ∨ p.uri = some "" →
       SSE.handle_resource_request ⟨id, "resources/read", some p⟩ reader conns =
         ({ id := id, result := none,
            error := some (-32602, "Missing required parameter: uri") }, conns)) := by
  refine ⟨?_, ?_, ?_, ?_, ?_, ?_⟩
  · intro req exec conns h1 h2
    unfold SSE.handle_tool_request
    rw [if_neg h1, if_neg h2]
  · intro id p n exec conns hn h1 h2 h3
    have hk : ¬(n = "get_weather_alerts" ∨ n = "get_coordinates" ∨ n = "get_weather_forecast") := by
      rintro (h | h | h) <;> [exact h1 h; exact h2 h; exact h3 h]
    unfold SSE.handle_tool_request
    simp [hn, hk]
  · intro id p exec conns hn
    unfold SSE.handle_tool_request
    simp [hn]
  · intro id p n e exec conns hn hk he
    unfold SSE.handle_tool_request
    simp [hn, hk, he]
  · intro req reader conns h1 h2
    unfold SSE.handle_resource_request
    rw [if_neg h1, if_neg h2]
  · intro id p reader conns hu
    unfold SSE.handle_resource_request
    rcases hu with hu | hu <;> simp [hu]

/-- Witness for C5 at concrete requests. -/
theorem c5_router_error_codes_witness :
    SSE.handle_tool_request ⟨some 1, "tools/call",
        some ⟨some "no_such_tool", [], none⟩⟩ (fun _ => .ok "") [] =
      ({ id := some 1, result := none,
         error := some (-32601, "Unknown tool: no_such_tool") }, []) ∧
    SSE.handle_tool_request ⟨some 2, "tools/call",
        some ⟨some "get_coordinates", [], none⟩⟩ (fun _ => .exn "boom") [] =
      ({ id := some 2, result := none,
         error := some (-32603, "Tool execution failed: boom") }, []) ∧
    SSE.handle_resource_request ⟨some 3, "resources/read",
        some ⟨none, [], none⟩⟩ (fun _ => .errorOut "") [] =
      ({ id := some 3, result := none,
         error := some (-32602, "Missing required parameter: uri") }, []) ∧
    SSE.handle_resource_request ⟨some 4, "bogus/method",
        some ⟨none, [], none⟩⟩ (fun _ => .errorOut "") [] =
      ({ id := some 4, result := none,
         error := some (-32601, "Unknown method: bogus/method") }, []) := by
  refine ⟨c5_router_error_codes.2.1 (some 1) ⟨some "no_such_tool", [], none⟩
      "no_such_tool" (fun _ => .ok "") [] rfl (by decide) (by decide) (by decide),
    c5_router_error_codes.2.2.2.1 (some 2) ⟨some "get_coordinates", [], none⟩
      "get_coordinates" "boom" (fun _ => .exn "boom") [] rfl (Or.inr (Or.inl rfl)) rfl,
    c5_router_error_codes.2.2.2.2.2 (some 3) ⟨none, [], none⟩
      (fun _ => .errorOut "") [] (Or.inl rfl),
    c5_router_error_codes.2.2.2.2.1 ⟨some 4, "bogus/method", some ⟨none, [], none⟩⟩
      (fun _ => .errorOut "") [] (by decide) (by decide)⟩

/-! ## Split-string lemmas for the resource dispatcher -/

/-- `splitChar` never produces the empty list of fragments. -/
theorem splitChar_ne_nil (c : Char) (s : List Char) : splitChar c s ≠ [] := by
  cases s with
  | nil => simp [splitChar]
  | cons x xs =>
    rw [splitChar]
    cases splitChar c xs with
    | nil => simp
    | cons r rs => by_cases hx : x == c <;> simp [hx]

/-- Splitting a fragment free of the separator returns it whole. -/
theorem splitChar_no_sep (c : Char) : ∀ s : List Char, c ∉ s → splitChar c s = [s]
  | [], _ => rfl
  | x :: xs, h => by
    have hx : (x == c) = false := by
      simp only [beq_eq_false_iff_ne]
      exact fun hh => h (hh ▸ List.mem_cons_self x xs)
    have hxs : c ∉ xs := fun hh => h (List.mem_cons_of_mem x hh)
    rw [splitChar, splitChar_no_sep c xs hxs]
    simp [hx]

/-- Splitting past a leading separator-free fragment peels it off. -/
theorem splitChar_append_sep (c : Char) :
    ∀ (a b : List Char), c ∉ a → splitChar c (a ++ c :: b) = a :: splitChar c b
  | [], b, _ => by
    show splitChar c (c :: b) = [] :: splitChar c b
    rw [splitChar]
    cases hs : splitChar c b with
    | nil => exact absurd hs (splitChar_ne_nil c b)
    | cons r rs => simp
  | x :: a, b, h => by
    have hx : (x == c) = false := by
      simp only [beq_eq_false_iff_ne]
      exact fun hh => h (hh ▸ List.mem_cons_self x a)
    have ha : c ∉ a := fun hh => h (List.mem_cons_of_mem x hh)
    show splitChar c (x :: (a ++ c :: b)) = (x :: a) :: splitChar c b
    rw [splitChar, splitChar_append_sep c a b ha]
    simp [hx]

/-- A list starts with itself followed by anything. -/
theorem startsWithL_append (p t : List Char) : startsWithL p (p ++ t) = true := by
  induction p with
  | nil => rfl
  | cons x xs ih => simp [startsWithL, ih]

/-- A mismatch on the first character refutes the whole pattern. -/
theorem startsWithL_cons_ne (p c : Char) (ps cs : List Char) (h : (p == c) = false) :
    startsWithL (p :: ps) (c :: cs) = false := by
  simp [startsWithL, h]

/-- `animal://facts/<species>` (no trailing category segment) routes to
the facts generator with `category = "general"`. -/
theorem route_animal_facts_default (sp : String) (h : '/' ∉ sp.toList) :
    SSE.read_resource_route ("animal://facts/" ++ sp) =
      SSE.Route.animalFacts sp "general" := by
  have hdata : ("animal://facts/" ++ sp).toList = "animal://facts/".toList ++ sp.toList :=
    String.data_append _ _
  have hstart : startsWithL "animal://".toList ("animal://facts/".toList ++ sp.toList) = true := by
    rw [show "animal://facts/".toList = "animal://".toList ++ "facts/".toList from by decide,
        List.append_assoc]
    exact startsWithL_append _ _
  have hcount : ("animal://facts/".toList ++ sp.toList).count '/' = 3 := by
    rw [List.count_append]
    have h1 : "animal://facts/".toList.count '/' = 3 := by decide
    have h2 : sp.toList.count '/' = 0 := List.count_eq_zero.mpr h
    omega
  have hsplit : splitChar '/' ("animal://facts/".toList ++ sp.toList) =
      ["animal:".toList, [], "facts".toList, sp.toList] := by
    have e : "animal://facts/".toList ++ sp.toList =
        "animal:".toList ++ '/' :: ([] ++ '/' :: ("facts".toList ++ '/' :: sp.toList)) := by
      simp only [show "animal://facts/".toList =
            ['a','n','i','m','a','l',':','/','/','f','a','c','t','s','/'] from by decide,
          show "animal:".toList = ['a','n','i','m','a','l',':'] from by decide,
          show "facts".toList = ['f','a','c','t','s'] from by decide]
      simp
    rw [e, splitChar_append_sep _ _ _ (by decide),
        splitChar_append_sep _ _ _ (by simp),
        splitChar_append_sep _ _ _ (by decide),
        splitChar_no_sep _ _ h]
  simp only [SSE.read_resource_route, hdata, hstart, hcount, hsplit]
  simp [List.getD]

/-- `weather://report/<location>` (no trailing days segment) routes to the
report generator with `days = "7"`. -/
theorem route_weather_report_default (loc : String) (h : '/' ∉ loc.toList) :
    SSE.read_resource_route ("weather://report/" ++ loc) =
      SSE.Route.weatherReport loc "7" := by
  have hdata : ("weather://report/" ++ loc).toList =
      "weather://report/".toList ++ loc.toList := String.data_append _ _
  have hanimal : startsWithL "animal://".toList
      ("weather://report/".toList ++ loc.toList) = false := by
    rw [show "weather://report/".toList =
          'w' :: "eather://report/".toList from by decide,
        show "animal://".toList = 'a' :: "nimal://".toList from by decide,
        List.cons_append]
    exact startsWithL_cons_ne _ _ _ _ (by decide)
  have hstart : startsWithL "weather://report/".toList
      ("weather://report/".toList ++ loc.toList) = true := startsWithL_append _ _
  have hsplit : splitChar '/' ("weather://report/".toList ++ loc.toList) =
      ["weather:".toList, [], "report".toList, loc.toList] := by
    have e : "weather://report/".toList ++ loc.toList =
        "weather:".toList ++ '/' :: ([] ++ '/' :: ("report".toList ++ '/' :: loc.toList)) := by
      simp only [show "weather://report/".toList =
            ['w','e','a','t','h','e','r',':','/','/','r','e','p','o','r','t','/'] from by decide,
          show "weather:".toList = ['w','e','a','t','h','e','r',':'] from by decide,
          show "report".toList = ['r','e','p','o','r','t'] from by decide]
      simp
    rw [e, splitChar_append_sep _ _ _ (by decide),
        splitChar_append_sep _ _ _ (by simp),
        splitChar_append_sep _ _ _ (by decide),
        splitChar_no_sep _ _ h]
  simp only [SSE.read_resource_route, hdata, hanimal, hstart, hsplit]
  simp [List.getD]

/-- `climate://<location>/<year>` (no trailing month segment) routes to
the climate generator with `month = "01"`. -/
theorem route_climate_default (loc yr : String)
    (hl : '/' ∉ loc.toList) (hy : '/' ∉ yr.toList) :
    SSE.read_resource_route ("climate://" ++ loc ++ "/" ++ yr) =
      SSE.Route.climateData loc yr "01" := by
  have hdata : ("climate://" ++ loc ++ "/" ++ yr).toList =
      "climate:".toList ++ '/' :: ([] ++ '/' :: (loc.toList ++ '/' :: yr.toList)) := by
    have e1 : ("climate://" ++ loc ++ "/" ++ yr).toList =
        (("climate://".toList ++ loc.toList) ++ "/".toList) ++ yr.toList := by
      rw [show ("climate://" ++ loc ++ "/" ++ yr).toList =
            (("climate://" ++ loc) ++ "/").toList ++ yr.toList from String.data_append _ _,
          show (("climate://" ++ loc) ++ "/").toList =
            ("climate://" ++ loc).toList ++ "/".toList from String.data_append _ _,
          show ("climate://" ++ loc).toList =
            "climate://".toList ++ loc.toList from String.data_append _ _]
    rw [e1]
    simp only [show "climate://".toList =
          ['c','l','i','m','a','t','e',':','/','/'] from by decide,
        show "climate:".toList = ['c','l','i','m','a','t','e',':'] from by decide,
        show "/".toList = ['/'] from by decide]
    simp
  have hanimal : startsWithL "animal://".toList
      ("climate:".toList ++ '/' :: ([] ++ '/' :: (loc.toList ++ '/' :: yr.toList))) = false := by
    rw [show "climate:".toList = 'c' :: "limate:".toList from by decide,
        show "animal://".toList = 'a' :: "nimal://".toList from by decide,
        List.cons_append]
    exact startsWithL_cons_ne _ _ _ _ (by decide)
  have hweather : startsWithL "weather://report/".toList
      ("climate:".toList ++ '/' :: ([] ++ '/' :: (loc.toList ++ '/' :: yr.toList))) = false := by
    rw [show "climate:".toList = 'c' :: "limate:".toList from by decide,
        show "weather://report/".toList = 'w' :: "eather://report/".toList from by decide,
        List.cons_append]
    exact startsWithL_cons_ne _ _ _ _ (by decide)
  have hclimate : startsWithL "climate://".toList
      ("climate:".toList ++ '/' :: ([] ++ '/' :: (loc.toList ++ '/' :: yr.toList))) = true := by
    have e : "climate:".toList ++ '/' :: ([] ++ '/' :: (loc.toList ++ '/' :: yr.toList)) =
        "climate://".toList ++ (loc.toList ++ '/' :: yr.toList) := by
      simp only [show "climate://".toList =
            ['c','l','i','m','a','t','e',':','/','/'] from by decide,
          show "climate:".toList = ['c','l','i','m','a','t','e',':'] from by decide]
      simp
    rw [e]
    exact startsWithL_append _ _
  have hsplit : splitChar '/'
      ("climate:".toList ++ '/' :: ([] ++ '/' :: (loc.toList ++ '/' :: yr.toList))) =
      ["climate:".toList, [], loc.toList, yr.toList] := by
    rw [splitChar_append_sep _ _ _ (by decide),
        splitChar_append_sep _ _ _ (by simp),
        splitChar_append_sep _ _ _ hl,
        splitChar_no_sep _ _ hy]
  simp only [SSE.read_resource_route, hdata, hanimal, hweather, hclimate, hsplit]
  simp [List.getD]

/-- **C10.**  In the SSE resource dispatcher, a templated URI with its
final segment omitted is not rejected as unknown: for any slash-free
segments, `animal://facts/<species>` is read with `category = "general"`,
`weather://report/<location>` with `days = "7"`, and
`climate://<location>/<year>` with `month = "01"`. -/
theorem c10_resource_defaults :
    (∀ sp : String, '/' ∉ sp.toList →
        SSE.read_resource_route ("animal://facts/" ++ sp) =
          SSE.Route.animalFacts sp "general") ∧
    (∀ loc : String, '/' ∉ loc.toList →
        SSE.read_resource_route ("weather://report/" ++ loc) =
          SSE.Route.weatherReport loc "7") ∧
    (∀ loc yr : String, '/' ∉ loc.toList → '/' ∉ yr.toList →
        SSE.read_resource_route ("climate://" ++ loc ++ "/" ++ yr) =
          SSE.Route.climateData loc yr "01") :=
  ⟨route_animal_facts_default, route_weather_report_default, route_climate_default⟩

/-- Witness for C10 at the spec's example URIs. -/
theorem c10_resource_defaults_witness :
    SSE.read_resource_route ("animal://facts/" ++ "dolphin") =
      SSE.Route.animalFacts "dolphin" "general" ∧
    SSE.read_resource_route ("weather://report/" ++ "providence-ri") =
      SSE.Route.weatherReport "providence-ri" "7" ∧
    SSE.read_resource_route ("climate://" ++ "boston" ++ "/" ++ "2024") =
      SSE.Route.climateData "boston" "2024" "01" :=
  ⟨c10_resource_defaults.1 "dolphin" (by decide),
   c10_resource_defaults.2.1 "providence-ri" (by decide),
   c10_resource_defaults.2.2 "boston" "2024" (by decide) (by decide)⟩
